import Mathlib

/-!
Verification of the vehicle classification and schedule-normalization
pipeline of `app.py`.

Python strings are modelled as `List Char` (ASCII working alphabet),
missing values (`NaN` / `None`) as `Option`, and code that can raise a
Python exception as `Except String`.  Each definition below mirrors one
function or code block of the source file.
-/

/-- Python `str.isspace` characters relevant to `str.strip()` (ASCII model):
space, tab, newline, carriage return, vertical tab, form feed. -/
def pyIsSpace (c : Char) : Bool :=
  c.toNat = 32 ∨ c.toNat = 9 ∨ c.toNat = 10 ∨ c.toNat = 13 ∨ c.toNat = 11 ∨ c.toNat = 12

/-- Python `str.strip()`: drop leading and trailing whitespace. -/
def pyStrip (s : List Char) : List Char :=
  ((s.dropWhile pyIsSpace).reverse.dropWhile pyIsSpace).reverse

/-- Python `str.upper()` on one character (ASCII model): lowercase letters
are shifted down by 32, everything else is unchanged. -/
def upChar (c : Char) : Char :=
  if 97 ≤ c.toNat ∧ c.toNat ≤ 122 then Char.ofNat (c.toNat - 32) else c

/-- Python `str.replace(a, b)` restricted to single-character patterns, on
one character. -/
def replChar (a b c : Char) : Char :=
  if c = a then b else c

/-- Body of `clean_vin` (`app.py` lines 13-17) on a present string:
`vin.strip().upper().replace("O", "0").replace("I", "1")`. -/
def clean_vin_chars (s : List Char) : List Char :=
  (((pyStrip s).map upChar).map (replChar 'O' '0')).map (replChar 'I' '1')

/-- `clean_vin` (`app.py` lines 13-17): `pd.isna` input passes through. -/
def clean_vin (vin : Option String) : Option String :=
  match vin with
  | none => none
  | some s => some ⟨clean_vin_chars s.data⟩

/-- The per-character action of `clean_vin` after stripping: upper-case,
then `O` to `0`, then `I` to `1`. -/
def normChar (c : Char) : Char := replChar 'I' '1' (replChar 'O' '0' (upChar c))

/-!
Weight Extractor: `extract_gvwr_weight` (`app.py` lines 36-43) uses
`re.search` with the pattern `(\d{1,3}(?:,\d{3})*)\s*lb`.  The search is
modelled faithfully: leftmost starting position, greedy `\d{1,3}` and
Kleene star with backtracking, then optional whitespace and the literal
`lb`.
-/

/-- After the capture group the pattern requires optional whitespace and
then the literal `lb`. -/
def lbTail (s : List Char) : Bool :=
  match s.dropWhile pyIsSpace with
  | 'l' :: 'b' :: _ => true
  | _ => false

/-- Backtracking match of the star over comma-plus-three-digits, greedy
first, returning the characters the star consumed when the remainder
satisfies `lbTail`. -/
def starMatch : List Char → Option (List Char)
  | ',' :: d1 :: d2 :: d3 :: rest =>
    if d1.isDigit ∧ d2.isDigit ∧ d3.isDigit then
      match starMatch rest with
      | some c => some (',' :: d1 :: d2 :: d3 :: c)
      | none => if lbTail (',' :: d1 :: d2 :: d3 :: rest) then some [] else none
    else if lbTail (',' :: d1 :: d2 :: d3 :: rest) then some [] else none
  | s => if lbTail s then some [] else none

/-- Capture group starting with a three-digit run. -/
def groupLen3 : List Char → Option (List Char)
  | d1 :: d2 :: d3 :: rest =>
    if d1.isDigit ∧ d2.isDigit ∧ d3.isDigit then
      (starMatch rest).map (fun c => d1 :: d2 :: d3 :: c)
    else none
  | _ => none

/-- Capture group starting with a two-digit run. -/
def groupLen2 : List Char → Option (List Char)
  | d1 :: d2 :: rest =>
    if d1.isDigit ∧ d2.isDigit then
      (starMatch rest).map (fun c => d1 :: d2 :: c)
    else none
  | _ => none

/-- Capture group starting with a one-digit run. -/
def groupLen1 : List Char → Option (List Char)
  | d1 :: rest =>
    if d1.isDigit then
      (starMatch rest).map (fun c => d1 :: c)
    else none
  | _ => none

/-- The capture group at one starting position: greedy `\d{1,3}`, so three
digits are tried first, then two, then one. -/
def groupAt (s : List Char) : Option (List Char) :=
  (groupLen3 s).orElse (fun _ => (groupLen2 s).orElse (fun _ => groupLen1 s))

/-- Leftmost `re.search` over the string. -/
def regexSearchGvwr : List Char → Option (List Char)
  | [] => none
  | c :: rest =>
    match groupAt (c :: rest) with
    | some g => some g
    | none => regexSearchGvwr rest

/-- `int(match.group(1).replace(",", ""))`. -/
def digitsToNat (l : List Char) : Nat :=
  (l.filter (fun c => c ≠ ',')).foldl (fun n c => n * 10 + (c.toNat - 48)) 0

/-- `extract_gvwr_weight` (`app.py` lines 36-43). -/
def extract_gvwr_weight (gvwr_text : Option String) : Option Nat :=
  match gvwr_text with
  | none => none
  | some s =>
    if pyStrip s.data = [] then none
    else
      match regexSearchGvwr s.data with
      | some g => some (digitsToNat g)
      | none => none

/-!
Vehicle Classifier: `map_vehicle_type` (`app.py` lines 46-65).  The
weight argument arrives from a pandas column: a present value is an
integer, a missing value is either the float `NaN` (when the column holds
at least one number and so has float dtype) or the Python object `None`
(when every extraction failed and the column keeps object dtype).
Comparing `NaN` with a number yields `False`; comparing `None` with a
number raises `TypeError`.
-/

/-- A weight cell as seen by `map_vehicle_type`. -/
inductive GVW where
  | pynone : GVW
  | nan : GVW
  | val : Int → GVW
deriving DecidableEq

/-- Python `gvw <= m`: `None` raises, `NaN` compares false. -/
def pyLe : GVW → Int → Except String Bool
  | .pynone, _ => .error "TypeError"
  | .nan, _ => .ok false
  | .val n, m => .ok (n ≤ m)

/-- Python `gvw > m`: `None` raises, `NaN` compares false. -/
def pyGt : GVW → Int → Except String Bool
  | .pynone, _ => .error "TypeError"
  | .nan, _ => .ok false
  | .val n, m => .ok (m < n)

/-- `map_vehicle_type` (`app.py` lines 46-65), with Python's `elif` chain
and short-circuit `and` made explicit. -/
def map_vehicle_type (vehicle_type body_class : Option String) (gvw : GVW) :
    Except String String :=
  if vehicle_type = some "TRAILER" then .ok "Trailer"
  else if vehicle_type = some "MULTIPURPOSE PASSENGER VEHICLE (MPV)" ∨
      vehicle_type = some "PASSENGER CAR" then .ok "PPT"
  else match (if body_class = some "Truck-Tractor" then pyLe gvw 45000 else .ok false) with
  | .error e => .error e
  | .ok true => .ok "Truck Tractor_H"
  | .ok false =>
    match (if body_class = some "Truck-Tractor" then pyGt gvw 45000 else .ok false) with
    | .error e => .error e
    | .ok true => .ok "Truck Tractor_XH"
    | .ok false =>
      match pyLe gvw 10000 with
      | .error e => .error e
      | .ok true => .ok "Light Truck"
      | .ok false =>
        match pyLe gvw 20000 with
        | .error e => .error e
        | .ok true => .ok "Medium Truck"
        | .ok false =>
          match pyLe gvw 45000 with
          | .error e => .error e
          | .ok true => .ok "Heavy Truck"
          | .ok false =>
            match pyGt gvw 45000 with
            | .error e => .error e
            | .ok true => .ok "Extra Heavy Truck"
            | .ok false => .ok "Unknown"

/-- The keys of the dictionary inside `map_class_code` (`app.py` lines
83-92). -/
def class_code_keys : List String :=
  ["PPT", "Light Truck", "Medium Truck", "Heavy Truck", "Extra Heavy Truck",
    "Truck Tractor_H", "Truck Tractor_XH", "Trailer"]

/-- `map_class_code` (`app.py` lines 81-93): dictionary lookup with
default `"Unknown"`. -/
def map_class_code (vehicle_type : String) : String :=
  if vehicle_type = "PPT" then "739800"
  else if vehicle_type = "Light Truck" then "014890"
  else if vehicle_type = "Medium Truck" then "214890"
  else if vehicle_type = "Heavy Truck" then "314890"
  else if vehicle_type = "Extra Heavy Truck" then "414890"
  else if vehicle_type = "Truck Tractor_H" then "404890"
  else if vehicle_type = "Truck Tractor_XH" then "504890"
  else if vehicle_type = "Trailer" then "684890"
  else "Unknown"

/-!
DataFrames are modelled as a column list plus positionally indexed rows of
column-name/value pairs; a missing value (`NaN`) is `none`.  `cell`
reproduces pandas alignment: a row or column that is absent reads as
missing.
-/

structure Frame where
  cols : List String
  rows : List (List (String × Option String))
deriving DecidableEq

/-- The value of the frame at row position `i`, column `c`. -/
def Frame.cell (f : Frame) (i : Nat) (c : String) : Option String :=
  if c ∈ f.cols then
    match f.rows.get? i with
    | some r => (r.lookup c).getD none
    | none => none
  else none

/-- `DataFrame.combine_first` (`app.py` line 365): the caller's value is
used at every aligned position unless it is missing, in which case the
other frame's value fills the gap; indexes and columns are united, the
alignment being by row position (the integer index). -/
def Frame.combineFirst (a b : Frame) : Frame :=
  let cols := a.cols ++ b.cols.filter (fun c => ¬ c ∈ a.cols)
  let n := max a.rows.length b.rows.length
  ⟨cols, (List.range n).map
    (fun i => cols.map (fun c => (c, (a.cell i c).orElse (fun _ => b.cell i c))))⟩

/-- Column projection, `df[[...]]` (`app.py` line 362). -/
def Frame.selectCols (f : Frame) (cs : List String) : Frame :=
  ⟨cs, f.rows.map (fun r => cs.map (fun c => (c, (r.lookup c).getD none)))⟩

/-- `df.drop([c], axis=1)` (`app.py` line 366). -/
def Frame.dropCol (f : Frame) (c : String) : Frame :=
  ⟨f.cols.filter (fun x => x ≠ c), f.rows.map (fun r => r.filter (fun p => p.1 ≠ c))⟩

/-- `df.rename(columns={old: new})` (`app.py` line 367). -/
def Frame.renameCol (f : Frame) (old new : String) : Frame :=
  ⟨f.cols.map (fun x => if x = old then new else x),
    f.rows.map (fun r => r.map (fun p => if p.1 = old then (new, p.2) else p))⟩

/-- The decoded columns kept for the merge (`app.py` line 362). -/
def decoded_keep_cols : List String :=
  ["Cleaned VIN", "Make", "Model", "Vehicle Year", "GVW", "Class Code"]

/-- The Record Merger (`app.py` lines 362-367): select the decoded
columns, `combine_first` against the mapped upload, drop the raw `VIN`
column and rename `Cleaned VIN` to `VIN`. -/
def vehicle_schedule (decoded mapped : Frame) : Frame :=
  (((decoded.selectCols decoded_keep_cols).combineFirst mapped).dropCol "VIN").renameCol
    "Cleaned VIN" "VIN"

/-- First row position holding the given normalized identifier. -/
def Frame.rowIdxOfVIN (f : Frame) (v : String) : Option Nat :=
  (List.range f.rows.length).find? (fun i => f.cell i "Cleaned VIN" == some v)

/-- A second definition following the spec's words, for comparison with
the code's merge: the merge is keyed on the normalized identifier, and
for every field the decoded value is used when it is non-null and
non-empty, otherwise the raw value. -/
def spec_keyed_merge_cell (a b : Frame) (v c : String) : Option String :=
  let av := match a.rowIdxOfVIN v with | some i => a.cell i c | none => none
  let bv := match b.rowIdxOfVIN v with | some i => b.cell i c | none => none
  if av ≠ none ∧ av ≠ some "" then av else bv

/-- The fixed export schema `vehicle_schedule_fields` (`app.py` lines
139-150). -/
def vehicle_schedule_fields : List String :=
  ["State", "Vehicle Sequence No", "City", "Zip", "Garage Territory", "Town Code",
    "County Code", "Tax Terr Code", "Vehicle Year", "Make", "Model", "VIN",
    "Vehicle Type Code", "CompGroupNo", "Class Code", "Secondary Class Code",
    "Zone Territory (Garaged)", "Zone Territory (Destination)", "CO Private Pass Indiv Owned",
    "Auto Theft Prevention Surcharge", "GVW", "PIP", "Addt\x27l PIP", "Med Pay", "UM UIM",
    "UM PD", "OTC Coverage", "OTC Deductible", "ACV or Stated Amount", "Cost New",
    "Collision Coverage", "Collision Ded", "Misc Collision", "Auto Loan/Lease Gap Cov",
    "PIP - Operated by Employee", "Leased Vehicle", "Towing", "Rental Reimbursement Cov",
    "Rental Reimbursement Max Amt", "Rental Reimbursement Max Days #",
    "Vehicle Comp Deductible Override Factor", "Vehicle Collision Deductible Override Factor"]

/-- `df_coverage.reindex(columns=vehicle_schedule_fields, fill_value="")`
(`app.py` line 633): project onto the fixed schema in its fixed order;
a column the frame does not have is filled with the empty string. -/
def Frame.reindexCols (f : Frame) (cs : List String) : Frame :=
  ⟨cs, (List.range f.rows.length).map
    (fun i => cs.map (fun c => (c, if c ∈ f.cols then f.cell i c else some "")))⟩

/-!
Underwriting Rule 3 (`app.py` lines 500-503): rows whose `Model` contains
`CYBERTRUCK` case-insensitively get both deductibles set to `"10000"`.
A row carries the three fields the rule reads or writes plus all other
columns, which the rule leaves untouched.
-/

structure CovRow where
  model : Option String
  otcDeductible : Option String
  collisionDed : Option String
  rest : List (String × Option String)
deriving DecidableEq

/-- Containment of `needle` in `hay`. -/
def hasInfixSeq (needle : List Char) : List Char → Bool
  | [] => needle.isPrefixOf []
  | a :: t => needle.isPrefixOf (a :: t) || hasInfixSeq needle t

/-- `df["Model"].str.contains("CYBERTRUCK", case=False, na=False)` on one
cell: a missing model never matches, otherwise the match is
case-insensitive. -/
def cyberMatch (m : Option String) : Bool :=
  match m with
  | none => false
  | some s => hasInfixSeq "CYBERTRUCK".data (s.data.map upChar)

/-- The action of Rule 3 on one row: overwrite both deductibles with
`"10000"` when the model matches, leave the row unchanged otherwise. -/
def rule3Step (r : CovRow) : CovRow :=
  if cyberMatch r.model then
    { r with otcDeductible := some "10000", collisionDed := some "10000" }
  else r

/-- Rule 3 (`app.py` lines 500-503) over the whole record set. -/
def applyRule3 (df : List CovRow) : List CovRow :=
  df.map rule3Step

/-- `df_final["OTC Coverage"]` (`app.py` line 649): `"0"` when the OTC
deductible cell is non-null and non-blank, `""` otherwise. -/
def otc_coverage_flag (x : Option String) : String :=
  match x with
  | some s => if pyStrip s.data ≠ [] then "0" else ""
  | none => ""

/-- `df_final["Collision Coverage"]` (`app.py` line 652): `"Y"` when the
collision deductible cell is non-null and non-blank, `"N"` otherwise. -/
def collision_coverage_flag (x : Option String) : String :=
  match x with
  | some s => if pyStrip s.data ≠ [] then "Y" else "N"
  | none => "N"

/-- A deductible cell counts as present when it is non-null and its
string form does not strip to the empty string. -/
def coverage_present (x : Option String) : Bool :=
  match x with
  | some s => pyStrip s.data ≠ []
  | none => false

deriving instance DecidableEq for Except

/-- Decoded table of the misalignment scenario: one decoded row, for
identifier `Y`. -/
def decMisaligned : Frame :=
  ⟨["Cleaned VIN", "Make"], [[("Cleaned VIN", some "Y"), ("Make", some "Tesla")]]⟩

/-- Raw table of the misalignment scenario: identifier `X` at position 0,
identifier `Y` at position 1. -/
def rawMisaligned : Frame :=
  ⟨["VIN", "Cleaned VIN", "City"],
    [[("VIN", some "x-raw"), ("Cleaned VIN", some "X"), ("City", some "Denver")],
      [("VIN", some "y-raw"), ("Cleaned VIN", some "Y"), ("City", none)]]⟩

/-- Decoded table of the aligned concrete example: identifier `X` with
make `Tesla`. -/
def decExample : Frame :=
  ⟨["Cleaned VIN", "Make"], [[("Cleaned VIN", some "X"), ("Make", some "Tesla")]]⟩

/-- Raw table of the aligned concrete example: identifier `X` with an
empty make and a city, plus a second, raw-only row for identifier `Z`. -/
def rawExample : Frame :=
  ⟨["VIN", "Cleaned VIN", "Make", "City"],
    [[("VIN", some "x-raw"), ("Cleaned VIN", some "X"), ("Make", some ""), ("City", some "Denver")],
      [("VIN", some "z-raw"), ("Cleaned VIN", some "Z"), ("Make", some "Kia"), ("City", some "Rome")]]⟩

theorem char_toNat_ofNat (n : Nat) (h : n < 55296) : (Char.ofNat n).toNat = n := by
  have hv : n.isValidChar := Or.inl h
  simp only [Char.ofNat, dif_pos hv, Char.ofNatAux, Char.toNat, UInt32.toNat, BitVec.toNat_ofNatLt]

theorem toNat_upChar (c : Char) :
    (upChar c).toNat = if 97 ≤ c.toNat ∧ c.toNat ≤ 122 then c.toNat - 32 else c.toNat := by
  unfold upChar
  split
  · exact char_toNat_ofNat _ (by omega)
  · rfl

theorem upChar_eq_self (c : Char) (h : ¬ (97 ≤ c.toNat ∧ c.toNat ≤ 122)) : upChar c = c :=
  if_neg h

theorem replChar_eq_of_ne (a b c : Char) (h : c ≠ a) : replChar a b c = c :=
  if_neg h

theorem replChar_ne (a b c : Char) (hb : b ≠ a) : replChar a b c ≠ a := by
  unfold replChar
  split
  · exact hb
  · assumption

theorem replChar_preserve_ne (a b c d : Char) (hc : c ≠ d) (hb : b ≠ d) : replChar a b c ≠ d := by
  unfold replChar
  split
  · exact hb
  · exact hc

theorem normChar_ne_I (c : Char) : normChar c ≠ 'I' :=
  replChar_ne 'I' '1' _ (by decide)

theorem normChar_ne_O (c : Char) : normChar c ≠ 'O' :=
  replChar_preserve_ne 'I' '1' _ 'O' (replChar_ne 'O' '0' _ (by decide)) (by decide)

theorem notLower_normChar (c : Char) : ¬ (97 ≤ (normChar c).toNat ∧ (normChar c).toNat ≤ 122) := by
  unfold normChar replChar
  split
  · decide
  · split
    · decide
    · have := toNat_upChar c
      split at this <;> omega

theorem normChar_idem (c : Char) : normChar (normChar c) = normChar c := by
  conv_lhs => rw [normChar]
  rw [upChar_eq_self _ (notLower_normChar c)]
  rw [replChar_eq_of_ne 'O' '0' _ (normChar_ne_O c)]
  rw [replChar_eq_of_ne 'I' '1' _ (normChar_ne_I c)]

theorem pyIsSpace_normChar (c : Char) : pyIsSpace (normChar c) = pyIsSpace c := by
  by_cases hsp : pyIsSpace c = true
  · have hc : c.toNat = 32 ∨ c.toNat = 9 ∨ c.toNat = 10 ∨ c.toNat = 13 ∨ c.toNat = 11 ∨ c.toNat = 12 := by
      simpa [pyIsSpace] using hsp
    have heq : normChar c = c := by
      unfold normChar
      rw [upChar_eq_self _ (by omega)]
      rw [replChar_eq_of_ne 'O' '0' c (by intro h; rw [h] at hc; revert hc; decide)]
      rw [replChar_eq_of_ne 'I' '1' c (by intro h; rw [h] at hc; revert hc; decide)]
    rw [heq]
  · have hc : ¬ (c.toNat = 32 ∨ c.toNat = 9 ∨ c.toNat = 10 ∨ c.toNat = 13 ∨ c.toNat = 11 ∨ c.toNat = 12) := by
      simpa [pyIsSpace] using hsp
    have hfalse : pyIsSpace (normChar c) = false := by
      unfold normChar replChar
      split
      · decide
      · split
        · decide
        · have := toNat_upChar c
          simp only [pyIsSpace, decide_eq_false_iff_not]
          split at this <;> omega
    rw [hfalse, Bool.eq_false_iff.mpr hsp]

theorem dropWhile_map_comm (g : Char → Char) (p : Char → Bool)
    (h : ∀ c, p (g c) = p c) (l : List Char) :
    (l.map g).dropWhile p = (l.dropWhile p).map g := by
  induction l with
  | nil => rfl
  | cons a t ih =>
    simp only [List.map_cons, List.dropWhile_cons, h a]
    split
    · exact ih
    · rfl

theorem dropWhile_idem (p : Char → Bool) (l : List Char) :
    (l.dropWhile p).dropWhile p = l.dropWhile p := by
  induction l with
  | nil => rfl
  | cons a t ih =>
    simp only [List.dropWhile_cons]
    split
    · exact ih
    · rename_i hna
      simp only [List.dropWhile_cons]
      rw [if_neg hna]

theorem pyStrip_map_comm (g : Char → Char) (h : ∀ c, pyIsSpace (g c) = pyIsSpace c)
    (l : List Char) : pyStrip (l.map g) = (pyStrip l).map g := by
  unfold pyStrip
  rw [dropWhile_map_comm g pyIsSpace h, ← List.map_reverse, dropWhile_map_comm g pyIsSpace h,
    List.map_reverse]

theorem dropWhile_head_false (p : Char → Bool) (l : List Char) (a : Char) (t : List Char)
    (h : l.dropWhile p = a :: t) : p a = false := by
  induction l with
  | nil => simp at h
  | cons b u ih =>
    rw [List.dropWhile_cons] at h
    split at h
    · exact ih h
    · rename_i hb
      cases h
      exact Bool.eq_false_iff.mpr hb

theorem pyStrip_idem (l : List Char) : pyStrip (pyStrip l) = pyStrip l := by
  unfold pyStrip
  set t1 := l.dropWhile pyIsSpace with ht1
  set t2r := t1.reverse.dropWhile pyIsSpace with ht2r
  have hstable : t2r.dropWhile pyIsSpace = t2r := by
    rw [ht2r]; exact dropWhile_idem pyIsSpace t1.reverse
  have hlead : t2r.reverse.dropWhile pyIsSpace = t2r.reverse := by
    cases hrev : t2r.reverse with
    | nil => rfl
    | cons a u =>
      have hsuff : t2r <:+ t1.reverse := by
        rw [ht2r]; exact List.dropWhile_suffix pyIsSpace
      have hpref : t2r.reverse <+: t1 := by
        apply List.reverse_suffix.mp
        simpa using hsuff
      rw [hrev] at hpref
      obtain ⟨r, hr⟩ := hpref
      have hstab1 : t1.dropWhile pyIsSpace = t1 := by
        rw [ht1]; exact dropWhile_idem pyIsSpace l
      have ha : pyIsSpace a = false := by
        apply dropWhile_head_false pyIsSpace t1 a (u ++ r)
        rw [hstab1, ← hr]
        rfl
      rw [List.dropWhile_cons, ha]
      simp
  rw [hlead, List.reverse_reverse, hstable]

theorem clean_vin_chars_eq_map (s : List Char) :
    clean_vin_chars s = (pyStrip s).map normChar := by
  unfold clean_vin_chars
  rw [List.map_map, List.map_map]
  rfl

theorem map_normChar_map_normChar (l : List Char) :
    (l.map normChar).map normChar = l.map normChar := by
  induction l with
  | nil => rfl
  | cons a t ih =>
    simp only [List.map_cons]
    rw [normChar_idem a, ih]

theorem clean_vin_chars_idem (s : List Char) :
    clean_vin_chars (clean_vin_chars s) = clean_vin_chars s := by
  rw [clean_vin_chars_eq_map, clean_vin_chars_eq_map,
    pyStrip_map_comm normChar pyIsSpace_normChar, pyStrip_idem]
  exact map_normChar_map_normChar (pyStrip s)

/-!
Claim theorems.
-/

/-- Claim C1, counterexample: on the range text the extractor does not
return the range's first bound 10001. -/
theorem extract_gvwr_weight_range_first_bound_false :
    extract_gvwr_weight (some "Class 3: 10,001 - 14,000 lb") ≠ some 10001 := by decide

/-- Claim C1, amended: the regex requires the unit marker `lb` right
after the captured number (up to whitespace), so on a range the bound
adjacent to `lb` is returned — here 14000, the upper bound — with the
thousands separator stripped. -/
theorem extract_gvwr_weight_range_lb_bound :
    extract_gvwr_weight (some "Class 3: 10,001 - 14,000 lb") = some 14000 := by decide

/-- Claim C2, counterexample: the fixed export schema does not have 39
columns (it has 42). -/
theorem vehicle_schedule_fields_not_39 : vehicle_schedule_fields.length ≠ 39 := by decide

theorem lookup_map_pair (h : String → Option String) (cs : List String) (c : String)
    (hc : c ∈ cs) : (cs.map (fun x => (x, h x))).lookup c = some (h c) := by
  induction cs with
  | nil => cases hc
  | cons a t ih =>
    simp only [List.map_cons, List.lookup]
    by_cases hca : c = a
    · subst hca
      simp
    · have hb : (c == a) = false := beq_eq_false_iff_ne.mpr hca
      rw [hb]
      exact ih (by
        rcases List.mem_cons.mp hc with h' | h'
        · exact absurd h' hca
        · exact h')

theorem reindexCols_cell_fill (f : Frame) (c : String) (i : Nat)
    (hc : c ∈ vehicle_schedule_fields) (hf : c ∉ f.cols) (hi : i < f.rows.length) :
    (f.reindexCols vehicle_schedule_fields).cell i c = some "" := by
  unfold Frame.reindexCols Frame.cell
  simp only
  rw [if_pos hc]
  rw [List.get?_map, List.get?_range hi]
  simp only [Option.map_some']
  rw [lookup_map_pair _ vehicle_schedule_fields c hc]
  simp [hf]

/-- Claim C2, amended: for every input frame — the empty one included,
and frames whose rows miss fields — reindexing onto the schema yields
exactly the fixed 42 columns (not 39) in the fixed order, every row
having all 42 entries; and every schema column the input lacks reads as
the empty string on every row, never omitted. -/
theorem reindex_fixed_schema (f : Frame) :
    (f.reindexCols vehicle_schedule_fields).cols = vehicle_schedule_fields ∧
    vehicle_schedule_fields.length = 42 ∧
    (∀ r ∈ (f.reindexCols vehicle_schedule_fields).rows, r.length = 42) ∧
    (∀ c i, c ∈ vehicle_schedule_fields → c ∉ f.cols → i < f.rows.length →
      (f.reindexCols vehicle_schedule_fields).cell i c = some "") := by
  refine ⟨rfl, by decide, ?_, fun c i hc hf hi => reindexCols_cell_fill f c i hc hf hi⟩
  intro r hr
  simp only [Frame.reindexCols, List.mem_map] at hr
  obtain ⟨j, _, hj⟩ := hr
  rw [← hj, List.length_map]
  decide

/-- Claim C2, witness: a one-row frame holding only a `VIN` column; the
fill conjunct is instantiated at the absent column `City` and row 0. -/
theorem reindex_fixed_schema_witness :
    ("City" ∈ vehicle_schedule_fields ∧
      "City" ∉ (Frame.mk ["VIN"] [[("VIN", some "X")]]).cols ∧
      0 < (Frame.mk ["VIN"] [[("VIN", some "X")]]).rows.length) ∧
    (((Frame.mk ["VIN"] [[("VIN", some "X")]]).reindexCols vehicle_schedule_fields).cols =
        vehicle_schedule_fields ∧
      vehicle_schedule_fields.length = 42 ∧
      (∀ r ∈ ((Frame.mk ["VIN"] [[("VIN", some "X")]]).reindexCols vehicle_schedule_fields).rows,
        r.length = 42) ∧
      ((Frame.mk ["VIN"] [[("VIN", some "X")]]).reindexCols vehicle_schedule_fields).cell 0 "City"
        = some "") :=
  ⟨⟨by decide, by decide, by decide⟩,
    ⟨(reindex_fixed_schema (Frame.mk ["VIN"] [[("VIN", some "X")]])).1,
      (reindex_fixed_schema (Frame.mk ["VIN"] [[("VIN", some "X")]])).2.1,
      (reindex_fixed_schema (Frame.mk ["VIN"] [[("VIN", some "X")]])).2.2.1,
      (reindex_fixed_schema (Frame.mk ["VIN"] [[("VIN", some "X")]])).2.2.2 "City" 0
        (by decide) (by decide) (by decide)⟩⟩

/-- Claim C3, counterexample: a weight that is the Python object `None`
is fed to the first reached threshold comparison, which raises
`TypeError`; the classifier does not short-circuit to `"Unknown"`. -/
theorem map_vehicle_type_pynone_raises :
    map_vehicle_type (some "TRUCK") (some "Van") GVW.pynone = Except.error "TypeError" := by decide

/-- Claim C3, amended: when the null weight arrives as the float `NaN`
(the pandas representation whenever the weight column has float dtype)
and no declared-type rule matches, every threshold comparison evaluates
to false and the chain falls through to `"Unknown"` without raising; the
comparisons are still performed, and a weight that is a bare Python
`None` raises `TypeError` instead. -/
theorem map_vehicle_type_nan_unknown (vt bc : Option String)
    (h1 : vt ≠ some "TRAILER") (h2 : vt ≠ some "MULTIPURPOSE PASSENGER VEHICLE (MPV)")
    (h3 : vt ≠ some "PASSENGER CAR") :
    map_vehicle_type vt bc GVW.nan = Except.ok "Unknown" := by
  unfold map_vehicle_type
  rw [if_neg h1, if_neg (by rintro (h | h) <;> [exact h2 h; exact h3 h])]
  by_cases hbc : bc = some "Truck-Tractor" <;> simp [hbc, pyLe, pyGt]

/-- Claim C3, witness: a truck with a van body and `NaN` weight. -/
theorem map_vehicle_type_nan_unknown_witness :
    (some "TRUCK" ≠ some "TRAILER") ∧
    (some "TRUCK" ≠ some "MULTIPURPOSE PASSENGER VEHICLE (MPV)") ∧
    (some "TRUCK" ≠ some "PASSENGER CAR") ∧
    map_vehicle_type (some "TRUCK") (some "Van") GVW.nan = Except.ok "Unknown" :=
  ⟨by decide, by decide, by decide,
    map_vehicle_type_nan_unknown (some "TRUCK") (some "Van") (by decide) (by decide) (by decide)⟩

/-- Claim C5, counterexample: at weight 45000 the classifier does not
return the spec's label `Truck Tractor (Heavy)`. -/
theorem truck_tractor_heavy_spec_label_false :
    map_vehicle_type (some "TRUCK") (some "Truck-Tractor") (GVW.val 45000) ≠
      Except.ok "Truck Tractor (Heavy)" := by decide

/-- Claim C5, amended: with the code's literal category strings, weight
exactly 45000 classifies as `Truck Tractor_H` and 45001 as
`Truck Tractor_XH` — the 45,000-pound boundary is inclusive on the heavy
side. -/
theorem truck_tractor_boundary_45000 :
    map_vehicle_type (some "TRUCK") (some "Truck-Tractor") (GVW.val 45000) =
      Except.ok "Truck Tractor_H" ∧
    map_vehicle_type (some "TRUCK") (some "Truck-Tractor") (GVW.val 45001) =
      Except.ok "Truck Tractor_XH" :=
  ⟨by decide, by decide⟩

/-- Claim C6: the identifier normalizer is idempotent — normalizing an
already-normalized identifier (missing or present) yields itself. -/
theorem clean_vin_idem (s : Option String) : clean_vin (clean_vin s) = clean_vin s := by
  cases s with
  | none => rfl
  | some str =>
    simp only [clean_vin]
    rw [clean_vin_chars_idem]

theorem rule3Step_idem (r : CovRow) : rule3Step (rule3Step r) = rule3Step r := by
  unfold rule3Step
  by_cases h : cyberMatch r.model
  · rw [if_pos h,
      if_pos (show cyberMatch
        ({ r with otcDeductible := some "10000", collisionDed := some "10000" } : CovRow).model
        = true from h)]
  · rw [if_neg h, if_neg h]

/-- Claim C7: Rule 3 — model contains `CYBERTRUCK` case-insensitively
sets both deductibles to 10000 — is idempotent: for every record set,
applying it twice equals applying it once. -/
theorem applyRule3_idem (df : List CovRow) : applyRule3 (applyRule3 df) = applyRule3 df := by
  unfold applyRule3
  induction df with
  | nil => rfl
  | cons r t ih =>
    simp only [List.map_cons]
    rw [rule3Step_idem r]
    exact congrArg _ ih

/-- Claim C8, counterexample: the normalizer does not map the
five-character identifier of the example to the seven-character string
the claim names. -/
theorem clean_vin_spec_example_false :
    clean_vin (some " 1o2i3 ") ≠ some "1021213" := by decide

/-- Claim C8, amended: the normalizer maps the concrete inputs to
`10213` and `WB10213` respectively — space trimmed, upper-cased, O
replaced by 0, I replaced by 1. -/
theorem clean_vin_concrete_examples :
    clean_vin (some " 1o2i3 ") = some "10213" ∧
    clean_vin (some " wb1o2i3 ") = some "WB10213" :=
  ⟨by decide, by decide⟩

/-- Claim C9: the resolver maps `Trailer` to `684890`, and every
category outside its fixed eight-entry table yields the sentinel
`Unknown` rather than failing. -/
theorem map_class_code_trailer_and_default (s : String) (h : s ∉ class_code_keys) :
    map_class_code "Trailer" = "684890" ∧ map_class_code s = "Unknown" := by
  constructor
  · decide
  · simp only [class_code_keys, List.mem_cons, List.mem_singleton, not_or] at h
    obtain ⟨h1, h2, h3, h4, h5, h6, h7, h8⟩ := h
    simp [map_class_code, h1, h2, h3, h4, h5, h6, h7, h8]

/-- Claim C9, witness: the unmapped category `Bogus`. -/
theorem map_class_code_trailer_and_default_witness :
    "Bogus" ∉ class_code_keys ∧
    (map_class_code "Trailer" = "684890" ∧ map_class_code "Bogus" = "Unknown") :=
  ⟨by decide, map_class_code_trailer_and_default "Bogus" (by decide)⟩

/-- Claim C10: the two coverage-presence flags use different encodings —
for every deductible cell, `OTC Coverage` is `"0"` when the cell is
non-null and non-blank and `""` otherwise, while `Collision Coverage` is
`"Y"` when the cell is non-null and non-blank and `"N"` otherwise. -/
theorem coverage_flag_encodings (x : Option String) :
    otc_coverage_flag x = (if coverage_present x then "0" else "") ∧
    collision_coverage_flag x = (if coverage_present x then "Y" else "N") := by
  cases x with
  | none => exact ⟨rfl, rfl⟩
  | some s =>
    simp only [otc_coverage_flag, collision_coverage_flag, coverage_present]
    by_cases h : pyStrip s.data = [] <;> simp [h]

/-- Claim C4, counterexample: `combine_first` aligns rows by position,
not by identifier — with one decoded row (identifier `Y`) and two raw
rows (`X` then `Y`), the merged row carries identifier `Y` together with
`X`'s city, while a merge keyed on the identifier gives `Y` no city. -/
theorem merge_positional_not_keyed :
    (vehicle_schedule decMisaligned rawMisaligned).cell 0 "VIN" = some "Y" ∧
    (vehicle_schedule decMisaligned rawMisaligned).cell 0 "City" = some "Denver" ∧
    spec_keyed_merge_cell (decMisaligned.selectCols decoded_keep_cols) rawMisaligned "Y" "City"
      = none := by decide

/-- Claim C4, amended: the merge is positional — row i of the decoded
table gap-fills against row i of the raw table, decoded values winning
when non-null (decoded empty strings having been nulled beforehand);
when the two tables list the same identifier at the same position, as in
the claim's concrete example, this coincides with identifier keying:
decoded make `Tesla` beats raw empty make, the raw-only city survives,
and a raw-only row is retained. -/
theorem merge_example_aligned :
    (vehicle_schedule decExample rawExample).cell 0 "VIN" = some "X" ∧
    (vehicle_schedule decExample rawExample).cell 0 "Make" = some "Tesla" ∧
    (vehicle_schedule decExample rawExample).cell 0 "City" = some "Denver" ∧
    (vehicle_schedule decExample rawExample).cell 1 "VIN" = some "Z" ∧
    (vehicle_schedule decExample rawExample).cell 1 "Make" = some "Kia" ∧
    (vehicle_schedule decExample rawExample).cell 1 "City" = some "Rome" := by decide
